import Mathlib

/-!
Shallow embedding of the Question Companion page (src/app/page.tsx) and
verification of its derived-value pipeline.

The page keeps seven pieces of state (the current stage, four free text
fields, a keyword list and a copied flag) and derives four pure values from
them: a progress score, a list of four insights, a list of recommended
prompts and a formatted summary string.  Each definition below is a direct
translation of the corresponding TypeScript; machine details that matter
(JavaScript trim semantics, string falsiness, Math.round, Array.slice,
setTimeout scheduling) are modelled explicitly.
-/

namespace QuestionCompanion

/-- Model of JavaScript String.prototype.trim: drop whitespace characters
from both ends of the string.  (JavaScript trims the full Unicode
whitespace set; the fields in every claim use ASCII whitespace, where the
two notions agree.) -/
def jsTrim (s : String) : String :=
  ⟨((s.data.dropWhile Char.isWhitespace).reverse.dropWhile Char.isWhitespace).reverse⟩

/-- The four wizard steps, from the StepKey union type. -/
inductive StepKey where
  | question
  | background
  | goal
  | constraints
deriving DecidableEq

/-- Insight tone, from the literal union "positive" | "warning". -/
inductive Tone where
  | positive
  | warning
deriving DecidableEq

/-- The Insight record type. -/
structure Insight where
  title : String
  description : String
  tone : Tone
deriving DecidableEq

/-- The component state: the useState hooks of Home. -/
structure FormState where
  stage : StepKey
  question : String
  background : String
  goal : String
  constraints : String
  keywords : List String
  copied : Bool
deriving DecidableEq

/-- The initial state: stage = question, all fields empty, no keywords,
copied = false. -/
def initialState : FormState :=
  { stage := StepKey.question
    question := ""
    background := ""
    goal := ""
    constraints := ""
    keywords := []
    copied := false }

/-- The entries array [question, background, goal, constraints] used by the
progress computation. -/
def entries (s : FormState) : List String :=
  [s.question, s.background, s.goal, s.constraints]

/-- filled: the number of entries whose trimmed length is greater than 0. -/
def filledCount (s : FormState) : ℕ :=
  ((entries s).filter (fun field => decide ((jsTrim field).length > 0))).length

/-- progress = Math.round((filled / entries.length) * 100).  Math.round is
modelled by Mathlib round on ℚ (both round half-integers up; here the
quotient times 100 is always an exact multiple of 25, so no rounding is
exercised and the floating-point evaluation in JavaScript is exact as
well). -/
def progress (s : FormState) : ℤ :=
  round (((filledCount s : ℚ) / ((entries s).length : ℚ)) * 100)

/-- The insights list.  The source pushes one record per field onto an empty
array, first branching on the trimmed length of the field, so the result is
always this four-element list of conditionals, in source order. -/
def insights (s : FormState) : List Insight :=
  [ if (jsTrim s.question).length > 10 then
      { title := "Great clarity!"
        description := "Your question has enough detail to start digging in."
        tone := Tone.positive }
    else
      { title := "Could use more detail."
        description := "Expand the core question with specifics. Try starting with who, what, when, where, why, or how."
        tone := Tone.warning }
  , if (jsTrim s.background).length > 20 then
      { title := "Solid context!"
        description := "Solid background info makes it easier to deliver a precise answer."
        tone := Tone.positive }
    else
      { title := "Think about edge cases."
        description := "Add dependencies, teammates, or previous attempts so others can avoid redundant suggestions."
        tone := Tone.warning }
  , if (jsTrim s.goal).length > 10 then
      { title := "Thoughtful goal!"
        description := "Defining success helps others tailor advice to your expectations."
        tone := Tone.positive }
    else
      { title := "Consider scope & timing."
        description := "Think about the impact you want. Are you looking for a decision, a workaround, or validation?"
        tone := Tone.warning }
  , if (jsTrim s.constraints).length > 5 then
      { title := "Nice constraints!"
        description := "Knowing constraints early reduces back-and-forth clarifications."
        tone := Tone.positive }
    else
      { title := "Clarify who is impacted."
        description := "Call out time limits, resources, or approvals you need. It sets expectations for possible answers."
        tone := Tone.warning } ]

/-- The prompts array before the final slice(0, 4).  The four rules run in
source order; question is tested with raw length > 0, the other three with
JavaScript string falsiness (!field), i.e. equality with the empty string.
No trimming happens here. -/
def promptsAll (s : FormState) : List String :=
  (if s.question.length > 0 then
    [ "What would solving this unlock for you or your team?"
    , "Who needs to sign off once you have an answer?" ]
  else []) ++
  (if s.background = "" then ["What have you already tried or considered?"] else []) ++
  (if s.goal = "" then ["How will you know you\x27re done?"] else []) ++
  (if s.constraints = "" then ["Are there deadlines or tools that limit your options?"] else [])

/-- recommendedPrompts = prompts.slice(0, 4). -/
def recommendedPrompts (s : FormState) : List String :=
  (promptsAll s).take 4

/-- JavaScript string-or fallback: v || dash is v unless v is the empty
string (the only falsy string), in which case it is the em-dash. -/
def orDash (v : String) : String :=
  if v = "" then "—" else v

/-- Model of Array.prototype.filter(Boolean) on an array of string |
undefined entries: undefined and the empty string are dropped, every other
string is kept. -/
def jsFilterTruthy (xs : List (Option String)) : List String :=
  xs.filterMap (fun o =>
    match o with
    | none => none
    | some line => if line = "" then none else some line)

/-- formattedSummary: the five-entry lines array (the keyword line is
undefined when keywords is empty), filtered by Boolean and joined with a
newline. -/
def formattedSummary (s : FormState) : String :=
  String.intercalate "\n" (jsFilterTruthy
    [ some ("🧠 Question: " ++ orDash s.question)
    , some ("📚 Background: " ++ orDash s.background)
    , some ("🎯 Desired outcome: " ++ orDash s.goal)
    , some ("⏱️ Constraints: " ++ orDash s.constraints)
    , if s.keywords.length > 0 then
        some ("🏷️ Keywords: " ++ String.intercalate ", " s.keywords)
      else none ])

/-- Modelled from the spec (section 4.2, Summary formatting): the summary is
the newline-join of the four field lines, a field of raw length zero being
replaced by the literal em-dash, followed by a keywords line, present only
when the keyword list is non-empty, listing the keywords comma-space
separated in stored order.  Used only to compare with formattedSummary. -/
def specSummary (s : FormState) : String :=
  String.intercalate "\n"
    ([ "🧠 Question: " ++ (if s.question.length = 0 then "—" else s.question)
     , "📚 Background: " ++ (if s.background.length = 0 then "—" else s.background)
     , "🎯 Desired outcome: " ++ (if s.goal.length = 0 then "—" else s.goal)
     , "⏱️ Constraints: " ++ (if s.constraints.length = 0 then "—" else s.constraints) ] ++
     (if s.keywords = [] then []
      else ["🏷️ Keywords: " ++ String.intercalate ", " s.keywords]))

/-- toggleKeyword: remove the keyword when present (filter keeps the items
different from it), otherwise append it at the end. -/
def toggleKeyword (prev : List String) (keyword : String) : List String :=
  if keyword ∈ prev then prev.filter (fun item => decide (item ≠ keyword))
  else prev ++ [keyword]

/-- State of the copy machinery: the copied flag, the fire times of the
pending setTimeout callbacks scheduled by handleCopy (each callback sets
copied to false), and a count of errors written to the console. -/
structure CopyState where
  copied : Bool
  pending : List ℕ
  errorsLogged : ℕ
deriving DecidableEq

/-- handleCopy, run at time now: the awaited clipboard write either succeeds
(writeOk = true), after which copied is set to true and a reset callback is
scheduled 2400 ms later, or throws (writeOk = false), in which case the
catch block logs the error and nothing else changes.  The second component
records whether an exception escaped handleCopy: the try/catch swallows the
failure, so it is false on both paths.  Nothing ever clears a previously
scheduled timeout. -/
def handleCopy (s : CopyState) (now : ℕ) (writeOk : Bool) : CopyState × Bool :=
  if writeOk then
    ({ s with copied := true, pending := s.pending ++ [now + 2400] }, false)
  else
    ({ s with errorsLogged := s.errorsLogged + 1 }, false)

/-- Firing the next pending timeout: its callback is setCopied(false).
Timeouts fire in scheduling order, so the head of the pending list (the
earliest scheduled) fires first. -/
def fireNextTimer (s : CopyState) : CopyState :=
  match s.pending with
  | [] => s
  | _ :: rest => { s with copied := false, pending := rest }

/-- The user-exposed mutations of the form state: the four field setters,
stage selection, keyword toggling, a copy attempt (which can only change
the copied flag, to true on success), and the delayed copied reset. -/
inductive Action where
  | setStage (k : StepKey)
  | setQuestion (v : String)
  | setBackground (v : String)
  | setGoal (v : String)
  | setConstraints (v : String)
  | toggleKw (k : String)
  | copy (writeOk : Bool)
  | copyReset

/-- Effect of one action on the form state. -/
def step (s : FormState) : Action → FormState
  | Action.setStage k => { s with stage := k }
  | Action.setQuestion v => { s with question := v }
  | Action.setBackground v => { s with background := v }
  | Action.setGoal v => { s with goal := v }
  | Action.setConstraints v => { s with constraints := v }
  | Action.toggleKw k => { s with keywords := toggleKeyword s.keywords k }
  | Action.copy writeOk => { s with copied := if writeOk then true else s.copied }
  | Action.copyReset => { s with copied := false }

/-- The states reachable from the initial state by the exposed actions. -/
inductive Reachable : FormState → Prop
  | init : Reachable initialState
  | next {s : FormState} (h : Reachable s) (a : Action) : Reachable (step s a)

/-- A string is empty exactly when its length is zero. -/
theorem string_eq_empty_iff (s : String) : s = "" ↔ s.length = 0 := by
  cases s with
  | mk data =>
    simp [String.length, String.ext_iff]

/-- A string that starts with a non-empty string is non-empty. -/
theorem append_ne_empty (a b : String) (h : 0 < a.length) : ¬ (a ++ b = "") := by
  intro hab
  rw [string_eq_empty_iff, String.length_append] at hab
  omega

/-- C1: for every form state the progress score equals 25 times the number
of fields among question, background, goal, constraints whose trimmed
length is greater than zero, and is therefore one of 0, 25, 50, 75, 100. -/
theorem progress_eq_25_mul_filled (s : FormState) :
    progress s = 25 * (filledCount s : ℤ) ∧
    (progress s = 0 ∨ progress s = 25 ∨ progress s = 50 ∨
     progress s = 75 ∨ progress s = 100) := by
  have hlen : ((entries s).length : ℚ) = 4 := by simp [entries]
  have h4 : filledCount s ≤ 4 := by
    have h := List.length_filter_le
      (fun field => decide ((jsTrim field).length > 0)) (entries s)
    simpa [filledCount, entries] using h
  unfold progress
  rw [hlen]
  set n := filledCount s with hn
  clear_value n
  interval_cases n <;> norm_num [round_eq]

/-- C2: for every form state the insights list has exactly four entries, in
the fixed order question, background, goal, constraints (witnessed by the
titles), and the tone of each entry is positive exactly when the trimmed
length of the corresponding field strictly exceeds its threshold (10, 20,
10, 5), otherwise warning; at a state whose fields sit exactly on the
thresholds every tone is warning. -/
theorem insights_length_order_tones :
    (∀ s : FormState,
      (insights s).length = 4 ∧
      (insights s).map Insight.tone =
        [ if (jsTrim s.question).length > 10 then Tone.positive else Tone.warning
        , if (jsTrim s.background).length > 20 then Tone.positive else Tone.warning
        , if (jsTrim s.goal).length > 10 then Tone.positive else Tone.warning
        , if (jsTrim s.constraints).length > 5 then Tone.positive else Tone.warning ] ∧
      (insights s).map Insight.title =
        [ if (jsTrim s.question).length > 10 then "Great clarity!" else "Could use more detail."
        , if (jsTrim s.background).length > 20 then "Solid context!" else "Think about edge cases."
        , if (jsTrim s.goal).length > 10 then "Thoughtful goal!" else "Consider scope & timing."
        , if (jsTrim s.constraints).length > 5 then "Nice constraints!" else "Clarify who is impacted." ]) ∧
    (insights { initialState with
        question := "abcdefghij"
        background := "abcdefghijklmnopqrst"
        goal := "abcdefghij"
        constraints := "abcde" }).map Insight.tone =
      [Tone.warning, Tone.warning, Tone.warning, Tone.warning] := by
  refine ⟨fun s => ⟨?_, ?_, ?_⟩, by decide⟩
  · simp [insights]
  · simp only [insights, List.map_cons, List.map_nil]
    split_ifs <;> rfl
  · simp only [insights, List.map_cons, List.map_nil]
    split_ifs <;> rfl

/-- C3: recommendedPrompts is the rule-built list truncated to its first 4
entries, so its length never exceeds 4; each rule prompt occurs in the
untruncated list exactly under its raw (untrimmed) condition; and a
whitespace-only background counts as filled for the prompt rules (its
prompt is absent) while counting as empty for the insight rules (its
insight tone is warning). -/
theorem recommendedPrompts_rules (s : FormState) :
    recommendedPrompts s = (promptsAll s).take 4 ∧
    (recommendedPrompts s).length ≤ 4 ∧
    ("What have you already tried or considered?" ∈ promptsAll s ↔ s.background = "") ∧
    ("How will you know you\x27re done?" ∈ promptsAll s ↔ s.goal = "") ∧
    ("Are there deadlines or tools that limit your options?" ∈ promptsAll s ↔
      s.constraints = "") ∧
    (("What would solving this unlock for you or your team?" ∈ promptsAll s ∧
      "Who needs to sign off once you have an answer?" ∈ promptsAll s) ↔
      s.question.length > 0) ∧
    ("What have you already tried or considered?" ∉
      promptsAll { initialState with background := " " }) ∧
    ((insights { initialState with background := " " }).map Insight.tone).get? 1 =
      some Tone.warning := by
  refine ⟨rfl, ?_, ?_, ?_, ?_, ?_, by decide, by decide⟩
  · simp [recommendedPrompts]
  all_goals
    unfold promptsAll
    split_ifs <;> simp_all

/-- C10: recommendedPrompts is empty exactly when question has raw length
zero and background, goal, constraints all have raw length greater than
zero; and the two question-triggered prompts are in the truncated list
exactly when question is non-empty, so the empty (all set) case never
occurs with a filled-in question. -/
theorem recommendedPrompts_empty_iff (s : FormState) :
    (recommendedPrompts s = [] ↔
      (s.question.length = 0 ∧ 0 < s.background.length ∧
       0 < s.goal.length ∧ 0 < s.constraints.length)) ∧
    (("What would solving this unlock for you or your team?" ∈ recommendedPrompts s ∧
      "Who needs to sign off once you have an answer?" ∈ recommendedPrompts s) ↔
      0 < s.question.length) := by
  have hq := string_eq_empty_iff s.question
  have hb := string_eq_empty_iff s.background
  have hg := string_eq_empty_iff s.goal
  have hc := string_eq_empty_iff s.constraints
  unfold recommendedPrompts promptsAll
  constructor
  · split_ifs <;> simp_all <;> omega
  · split_ifs <;> simp_all

/-- The raw-length emptiness test of the spec text and the string falsiness
test of the source pick the same branch. -/
theorem orDash_eq_lenIte (v : String) :
    (if v.length = 0 then "—" else v) = orDash v := by
  unfold orDash
  by_cases h : v = ""
  · simp [h]
  · rw [if_neg h, if_neg]
    intro hlen
    exact h ((string_eq_empty_iff v).mpr hlen)

/-- C4: for every form state the summary is the newline-join of the four
field lines (raw-empty fields replaced by the em-dash) followed by the
keywords line exactly when the keyword list is non-empty, the keywords
comma-space separated in stored order; in particular with question X, the
other fields empty and no keywords it is the four lines with three
em-dashes and no keyword line. -/
theorem formattedSummary_eq_spec :
    (∀ s : FormState, formattedSummary s = specSummary s) ∧
    formattedSummary { initialState with question := "X" } =
      "🧠 Question: X\n📚 Background: —\n🎯 Desired outcome: —\n⏱️ Constraints: —" := by
  refine ⟨fun s => ?_, by decide⟩
  have h1 : ¬ ("🧠 Question: " ++ orDash s.question = "") :=
    append_ne_empty _ _ (by decide)
  have h2 : ¬ ("📚 Background: " ++ orDash s.background = "") :=
    append_ne_empty _ _ (by decide)
  have h3 : ¬ ("🎯 Desired outcome: " ++ orDash s.goal = "") :=
    append_ne_empty _ _ (by decide)
  have h4 : ¬ ("⏱️ Constraints: " ++ orDash s.constraints = "") :=
    append_ne_empty _ _ (by decide)
  by_cases hk : s.keywords = []
  · have hk0 : ¬ s.keywords.length > 0 := by simp [hk]
    simp [formattedSummary, specSummary, jsFilterTruthy, hk, hk0,
      h1, h2, h3, h4, orDash_eq_lenIte]
  · have hk0 : s.keywords.length > 0 := by
      cases hkw : s.keywords with
      | nil => exact absurd hkw hk
      | cons a l => simp
    have h5 : ¬ ("🏷️ Keywords: " ++ String.intercalate ", " s.keywords = "") :=
      append_ne_empty _ _ (by decide)
    simp [formattedSummary, specSummary, jsFilterTruthy, hk, hk0,
      h1, h2, h3, h4, h5, orDash_eq_lenIte]

/-- C5: toggling the same keyword twice restores the original membership of
the keyword list and keeps every other member in its original relative
order (the sublist of entries different from the toggled keyword is
unchanged). -/
theorem toggleKeyword_twice (l : List String) (k : String) :
    (∀ x : String, x ∈ toggleKeyword (toggleKeyword l k) k ↔ x ∈ l) ∧
    (toggleKeyword (toggleKeyword l k) k).filter (fun item => decide (item ≠ k)) =
      l.filter (fun item => decide (item ≠ k)) := by
  by_cases hk : k ∈ l
  · have h1 : toggleKeyword l k = l.filter (fun item => decide (item ≠ k)) := by
      simp [toggleKeyword, hk]
    have hnot : k ∉ l.filter (fun item => decide (item ≠ k)) := by
      simp [List.mem_filter]
    have h2 : toggleKeyword (toggleKeyword l k) k =
        l.filter (fun item => decide (item ≠ k)) ++ [k] := by
      rw [h1]
      simp [toggleKeyword, hnot]
    constructor
    · intro x
      rw [h2]
      by_cases hx : x = k
      · subst hx
        simp [hk]
      · simp [List.mem_filter, hx]
    · rw [h2, List.filter_append]
      simp [List.filter_filter]
  · have h1 : toggleKeyword l k = l ++ [k] := by
      simp [toggleKeyword, hk]
    have h2 : toggleKeyword (toggleKeyword l k) k = l := by
      rw [h1]
      have hmem : k ∈ l ++ [k] := by simp
      simp only [toggleKeyword, if_pos hmem, List.filter_append]
      rw [List.filter_eq_self.mpr, List.filter_cons]
      · simp
      · intro a ha
        simp only [decide_eq_true_eq]
        intro hak
        exact hk (hak ▸ ha)
    rw [h2]
    exact ⟨fun x => Iff.rfl, rfl⟩

/-- Toggling a keyword preserves freedom from duplicates. -/
theorem toggleKeyword_nodup {l : List String} (hl : l.Nodup) (k : String) :
    (toggleKeyword l k).Nodup := by
  unfold toggleKeyword
  split
  · exact hl.filter _
  · next hk =>
    rw [List.nodup_append]
    exact ⟨hl, List.nodup_singleton k, by simpa using hk⟩

/-- C6: every state reachable from the initial state by the exposed
operations has a duplicate-free keyword list; the keyword toggle, the only
operation that touches keywords, preserves this invariant. -/
theorem reachable_keywords_nodup (s : FormState) (h : Reachable s) :
    s.keywords.Nodup := by
  induction h with
  | init => simp [initialState]
  | next h a ih =>
    cases a with
    | setStage k => simpa [step] using ih
    | setQuestion v => simpa [step] using ih
    | setBackground v => simpa [step] using ih
    | setGoal v => simpa [step] using ih
    | setConstraints v => simpa [step] using ih
    | toggleKw k => simpa [step] using toggleKeyword_nodup ih k
    | copy writeOk => simpa [step] using ih
    | copyReset => simpa [step] using ih

/-- Witness for C6 at a concrete reachable state: after toggling two
keywords from the initial state the keyword list is duplicate-free. -/
theorem reachable_keywords_nodup_witness :
    (step (step initialState (Action.toggleKw "frontend"))
      (Action.toggleKw "backend")).keywords.Nodup :=
  reachable_keywords_nodup _
    (Reachable.next (Reachable.next Reachable.init (Action.toggleKw "frontend"))
      (Action.toggleKw "backend"))

/-- C7: a failed clipboard write leaves the copied flag unchanged (so false
when it was false), lets no exception escape handleCopy, logs one error and
schedules nothing; starting from copied = false, the flag after a copy
attempt equals the success of the clipboard write, so copied is set to true
only by a successful write. -/
theorem handleCopy_failure (s : CopyState) (now : ℕ) :
    (handleCopy s now false).1.copied = s.copied ∧
    (handleCopy { s with copied := false } now false).1.copied = false ∧
    (handleCopy s now false).2 = false ∧
    (handleCopy s now false).1.errorsLogged = s.errorsLogged + 1 ∧
    (handleCopy s now false).1.pending = s.pending ∧
    (∀ writeOk : Bool,
      (handleCopy { s with copied := false } now writeOk).1.copied = writeOk) := by
  refine ⟨rfl, rfl, rfl, rfl, rfl, fun writeOk => ?_⟩
  cases writeOk <;> rfl

/-- C8 counterexample: two successful copies at times 0 and 1000 leave two
reset timers pending, 2400 and 3400, so the pending count exceeds one, and
the earlier timer still fires (at 2400, before the 3400 the second copy
would need) and sets copied to false: the delay is not restarted. -/
theorem handleCopy_timer_stacking_counterexample :
    ((handleCopy (handleCopy { copied := false, pending := [], errorsLogged := 0 }
        0 true).1 1000 true).1.pending = [2400, 3400]) ∧
    ¬ ((handleCopy (handleCopy { copied := false, pending := [], errorsLogged := 0 }
        0 true).1 1000 true).1.pending.length ≤ 1) ∧
    (fireNextTimer (handleCopy (handleCopy
        { copied := false, pending := [], errorsLogged := 0 }
        0 true).1 1000 true).1).copied = false := by
  decide

/-- C8 amended: every successful copy sets copied to true and appends a new
reset timer 2400 ms ahead without cancelling any pending one, so the number
of pending timers grows by one with each success, and firing any pending
timer sets copied back to false. -/
theorem handleCopy_timer_stacking (s : CopyState) (now : ℕ) :
    (handleCopy s now true).1.copied = true ∧
    (handleCopy s now true).1.pending = s.pending ++ [now + 2400] ∧
    (handleCopy s now true).1.pending.length = s.pending.length + 1 ∧
    (∀ (c : Bool) (t : ℕ) (rest : List ℕ) (e : ℕ),
      fireNextTimer { copied := c, pending := t :: rest, errorsLogged := e } =
        { copied := false, pending := rest, errorsLogged := e }) := by
  refine ⟨rfl, rfl, ?_, fun c t rest e => rfl⟩
  simp [handleCopy]

/-- C9: the stage field affects none of the four derived values: replacing
the stage of any form state leaves progress, insights, recommendedPrompts
and formattedSummary unchanged, so two states that differ only in stage
agree on all of them. -/
theorem stage_noninterference (s : FormState) (k : StepKey) :
    progress { s with stage := k } = progress s ∧
    insights { s with stage := k } = insights s ∧
    recommendedPrompts { s with stage := k } = recommendedPrompts s ∧
    formattedSummary { s with stage := k } = formattedSummary s :=
  ⟨rfl, rfl, rfl, rfl⟩

end QuestionCompanion
